import Mathlib

/-!
Verification of the RESCUE RADAR backend (`app.py`).

This file gives a shallow embedding of the reading-ingest path of the
backend: the `POST /api/v1/readings` handler `create_reading`, the
`GET /api/v1/readings/all` handler `all_readings`, the credential check
`require_key`, and the `victim_readings` table (`VictimReading` rows).

Python floats are modelled as rationals (`ℚ`); the claims under study only
compare, copy and bound-check measurement values, so no float-specific
behaviour is involved.  JSON values that may or may not coerce under
Python's `float(...)` are modelled by `JVal`: a numeric value, or a value
on which the coercion raises.  The database session is modelled as an
explicit state (`AppState`); a raised `SQLAlchemyError` during the
lookup/commit block is modelled by the `dbFails` flag, with the
`db.session.rollback()` of the handler reflected in the state being left
exactly as it was before the request.  `datetime.utcnow()` and the
generated `vic-...` identifier are passed in as the explicit parameters
`now` and `freshId`.
-/

namespace RescueRadar

/-- A JSON payload value destined for `float(...)` coercion: either a
numeric value (numbers, and numeric strings, which coerce successfully)
or a value whose coercion raises (modelled with the offending text). -/
inductive JVal where
  | num (q : ℚ)
  | raw (s : String)
deriving DecidableEq, Repr

/-- The JSON body accepted by `create_reading` (`request.get_json()`).
Absent keys are `none`; `data.get(...)` returns `none` for them.
`latitude`/`longitude` are stored verbatim without coercion in the
source, and are modelled as optional numbers. -/
structure Payload where
  victim_id : Option String := none
  distance_cm : Option JVal := none
  temperature : Option JVal := none
  humidity : Option JVal := none
  gas : Option JVal := none
  latitude : Option ℚ := none
  longitude : Option ℚ := none
deriving DecidableEq, Repr

/-- An incoming HTTP request: the optional `x-api-key` header and the
JSON body. -/
structure Request where
  x_api_key : Option String := none
  payload : Payload
deriving DecidableEq, Repr

/-- One row of the `victim_readings` table (`VictimReading(db.Model)`).
`victim_id` is declared `unique=True` in the source; `timestamp` is the
`DateTime` column, modelled as a rational number of seconds. -/
structure VictimReading where
  id : Nat
  victim_id : String
  distance_cm : ℚ
  temperature_c : Option ℚ := none
  humidity_pct : Option ℚ := none
  gas_ppm : Option ℚ := none
  latitude : Option ℚ := none
  longitude : Option ℚ := none
  timestamp : ℚ
deriving DecidableEq, Repr

/-- The database state: the rows of `victim_readings` plus the
autoincrement counter that assigns the surrogate primary key `id`. -/
structure AppState where
  rows : List VictimReading
  nextId : Nat
deriving DecidableEq, Repr

/-- The JSON body of a response from `create_reading`: the success body
`{"status":"ok","action":...,"reading":...}` or an `{"error": msg}` body. -/
inductive RespBody where
  | ok (action : String) (reading : VictimReading)
  | error (msg : String)
deriving DecidableEq, Repr

/-- An HTTP response: status code and JSON body. -/
structure Resp where
  status : Nat
  body : RespBody
deriving DecidableEq, Repr

/-- `require_key(req)`: the `x-api-key` header must equal the configured
write key (`WRITE_API_KEY`, passed here as `writeApiKey`).  A missing
header compares unequal to the key, as `None == str` does in Python. -/
def require_key (writeApiKey : String) (req : Request) : Bool :=
  req.x_api_key = some writeApiKey

/-- The default write key of the source: `os.environ.get("WRITE_API_KEY",
"rescue-radar-dev")` with the variable unset. -/
def WRITE_API_KEY : String := "rescue-radar-dev"

/-- The `float(x) if x is not None else None` coercion applied to each
optional secondary field, with the surrounding `try/except` turning a
failed coercion into `None`. -/
def coerce_optional : Option JVal → Option ℚ
  | some (JVal.num q) => some q
  | some (JVal.raw _) => none
  | none => none

/-- `data.get("victim_id") or f"vic-{uuid.uuid4().hex[:8]}"`: a missing
victim id, and also an empty string (falsy in Python), is replaced by the
freshly generated identifier. -/
def effective_victim_id (pl : Payload) (freshId : String) : String :=
  match pl.victim_id with
  | some s => if s = "" then freshId else s
  | none => freshId

/-- `VictimReading.query.filter_by(victim_id=victim_id).first()`. -/
def find_reading (rows : List VictimReading) (vid : String) : Option VictimReading :=
  rows.find? (fun r => r.victim_id = vid)

/-- ORM in-place mutation of the row returned by `.first()`: the first
row matching `vid` is replaced by `f` applied to it; all other rows are
untouched. -/
def update_first (vid : String) (f : VictimReading → VictimReading) :
    List VictimReading → List VictimReading
  | [] => []
  | r :: rs => if r.victim_id = vid then f r :: rs else r :: update_first vid f rs

/-- The field assignments of the `if reading:` branch (lines 455–461 of
the source): every column is overwritten from the incoming payload, and
the timestamp is set to the current time. -/
def reading_update (pl : Payload) (d now : ℚ) (r : VictimReading) : VictimReading :=
  { r with
    distance_cm := d,
    temperature_c := coerce_optional pl.temperature,
    humidity_pct := coerce_optional pl.humidity,
    gas_ppm := coerce_optional pl.gas,
    latitude := pl.latitude,
    longitude := pl.longitude,
    timestamp := now }

/-- The `VictimReading(...)` constructor call of the `else` branch
(lines 464–473 of the source), with the surrogate key the database would
assign on commit. -/
def reading_new (pl : Payload) (d now : ℚ) (id : Nat) (vid : String) : VictimReading :=
  { id := id,
    victim_id := vid,
    distance_cm := d,
    temperature_c := coerce_optional pl.temperature,
    humidity_pct := coerce_optional pl.humidity,
    gas_ppm := coerce_optional pl.gas,
    latitude := pl.latitude,
    longitude := pl.longitude,
    timestamp := now }

/-- Whether the required `distance_cm` payload field is rejected by the
handler's validation: missing (`400 distance_cm required`), failing
`float(...)` coercion (`400 Invalid number`), or outside
`0 <= distance_cm <= 10000` (`400 Invalid distance`). -/
def invalid_distance : Option JVal → Bool
  | none => true
  | some (JVal.raw _) => true
  | some (JVal.num d) => decide (¬ (0 ≤ d ∧ d ≤ 10000))

/-- The `POST /api/v1/readings` handler `create_reading`.

`writeApiKey` is the configured write key, `now` the value of
`datetime.utcnow()`, `freshId` the generated `vic-...` token, and
`dbFails` models an `SQLAlchemyError` raised inside the
lookup/commit `try` block: the handler rolls the session back (so the
state is returned unchanged) and answers `500 Database error`. -/
def create_reading (writeApiKey : String) (st : AppState) (req : Request)
    (now : ℚ) (freshId : String) (dbFails : Bool) : AppState × Resp :=
  if ¬ require_key writeApiKey req then
    (st, ⟨401, RespBody.error "Unauthorized"⟩)
  else
    match req.payload.distance_cm with
    | none => (st, ⟨400, RespBody.error "distance_cm required"⟩)
    | some (JVal.raw _) => (st, ⟨400, RespBody.error "Invalid number"⟩)
    | some (JVal.num d) =>
      if ¬ (0 ≤ d ∧ d ≤ 10000) then
        (st, ⟨400, RespBody.error "Invalid distance"⟩)
      else
        let vid := effective_victim_id req.payload freshId
        if dbFails then
          (st, ⟨500, RespBody.error "Database error"⟩)
        else
          match find_reading st.rows vid with
          | some r0 =>
            ({ st with rows := update_first vid (reading_update req.payload d now) st.rows },
             ⟨200, RespBody.ok "UPDATED" (reading_update req.payload d now r0)⟩)
          | none =>
            ({ rows := st.rows ++ [reading_new req.payload d now st.nextId vid],
               nextId := st.nextId + 1 },
             ⟨200, RespBody.ok "CREATED" (reading_new req.payload d now st.nextId vid)⟩)

/-- The JSON body of `GET /api/v1/readings/all`. -/
structure PageResp where
  readings : List VictimReading
  page : Int
  per_page : Int
  total : Nat
deriving DecidableEq, Repr

/-- The descending-timestamp comparison of
`order_by(VictimReading.timestamp.desc())`. -/
def timestamp_desc (a b : VictimReading) : Bool :=
  decide (b.timestamp ≤ a.timestamp)

/-- The `GET /api/v1/readings/all` handler: `per_page` is
`min(request per_page, 100)`, the rows are ordered by timestamp
descending, and `.paginate` returns the slice of that ordering for the
requested page. -/
def all_readings (st : AppState) (page per_page_req : Int) : PageResp :=
  let per_page := min per_page_req 100
  let sorted := st.rows.mergeSort timestamp_desc
  { readings := (sorted.drop ((page - 1) * per_page).toNat).take per_page.toNat,
    page := page,
    per_page := per_page,
    total := st.rows.length }

/-! ### General lemmas about the embedded operations -/

theorem reading_update_victim_id (pl : Payload) (d now : ℚ) (r : VictimReading) :
    (reading_update pl d now r).victim_id = r.victim_id := rfl

theorem reading_new_victim_id (pl : Payload) (d now : ℚ) (id : Nat) (vid : String) :
    (reading_new pl d now id vid).victim_id = vid := rfl

theorem update_first_map_victim_id (vid : String) (f : VictimReading → VictimReading)
    (hf : ∀ r, (f r).victim_id = r.victim_id) :
    ∀ l : List VictimReading,
      (update_first vid f l).map (fun r => r.victim_id) = l.map (fun r => r.victim_id)
  | [] => rfl
  | r :: rs => by
    by_cases h : r.victim_id = vid
    · simp [update_first, h, hf]
    · simp [update_first, h, update_first_map_victim_id vid f hf rs]

theorem update_first_length (vid : String) (f : VictimReading → VictimReading) :
    ∀ l : List VictimReading, (update_first vid f l).length = l.length
  | [] => rfl
  | r :: rs => by
    by_cases h : r.victim_id = vid
    · simp [update_first, h]
    · simp [update_first, h, update_first_length vid f rs]

theorem find_reading_update_first (vid : String) (f : VictimReading → VictimReading)
    (hf : ∀ r, (f r).victim_id = r.victim_id) :
    ∀ (l : List VictimReading) (r0 : VictimReading),
      find_reading l vid = some r0 →
      find_reading (update_first vid f l) vid = some (f r0)
  | [], r0, h => by simp [find_reading] at h
  | r :: rs, r0, h => by
    by_cases hr : r.victim_id = vid
    · rw [find_reading, List.find?_cons_of_pos _ (by simpa using hr)] at h
      cases h
      simp [update_first, hr, find_reading, List.find?_cons_of_pos, hf, hr]
    · rw [find_reading, List.find?_cons_of_neg _ (by simpa using hr)] at h
      have ih := find_reading_update_first vid f hf rs r0 h
      simp only [update_first, if_neg hr, find_reading] at ih ⊢
      rw [List.find?_cons_of_neg _ (by simpa using hr)]
      exact ih

theorem find_reading_append_last (l : List VictimReading) (r : VictimReading) (vid : String)
    (h : find_reading l vid = none) (hr : r.victim_id = vid) :
    find_reading (l ++ [r]) vid = some r := by
  unfold find_reading at h ⊢
  rw [List.find?_append, h]
  simp [hr]

theorem find_reading_none_mem (l : List VictimReading) (vid : String)
    (h : find_reading l vid = none) : ∀ r ∈ l, r.victim_id ≠ vid := by
  intro r hrmem
  have := List.find?_eq_none.mp h r hrmem
  simpa using this

theorem countP_update_first (vid v : String) (f : VictimReading → VictimReading)
    (hf : ∀ r, (f r).victim_id = r.victim_id) (l : List VictimReading) :
    (update_first vid f l).countP (fun r => decide (r.victim_id = v)) =
      l.countP (fun r => decide (r.victim_id = v)) := by
  have key : ∀ m : List VictimReading,
      m.countP (fun r => decide (r.victim_id = v)) =
        (m.map (fun r => r.victim_id)).countP (fun s => decide (s = v)) := by
    intro m
    rw [List.countP_map]
    rfl
  rw [key, key, update_first_map_victim_id vid f hf l]

/-! ### Claim C4: missing or wrong credential -/

/-- Claim C4 (confirmed): a request whose `x-api-key` header does not
match the configured write key is answered `401 Unauthorized` and the
stored state is returned unchanged, whatever the payload contains and
even if the storage layer would have failed. -/
theorem missing_credential_rejected
    (key : String) (st : AppState) (req : Request) (now : ℚ) (fid : String) (fails : Bool)
    (hkey : require_key key req = false) :
    create_reading key st req now fid fails = (st, ⟨401, RespBody.error "Unauthorized"⟩) := by
  unfold create_reading
  simp [hkey]

/-- Witness for `missing_credential_rejected`: a fully valid payload sent
with no `x-api-key` header is rejected and the table is untouched. -/
theorem missing_credential_rejected_witness :
    require_key "rescue-radar-dev"
        ⟨none, { victim_id := some "vic-1", distance_cm := some (JVal.num 50) }⟩ = false ∧
    create_reading "rescue-radar-dev" ⟨[], 1⟩
        ⟨none, { victim_id := some "vic-1", distance_cm := some (JVal.num 50) }⟩
        0 "vic-fresh" false =
      (⟨[], 1⟩, ⟨401, RespBody.error "Unauthorized"⟩) :=
  ⟨by decide,
   missing_credential_rejected "rescue-radar-dev" ⟨[], 1⟩
     ⟨none, { victim_id := some "vic-1", distance_cm := some (JVal.num 50) }⟩
     0 "vic-fresh" false (by decide)⟩

/-! ### Claim C8: storage failure -/

/-- Claim C8 (confirmed): when the storage layer fails during a valid
authorized submission, the handler answers `500 Database error` — the
failure is reported to the caller — and the rollback leaves the stored
state exactly as it was before the call. -/
theorem storage_failure_rolls_back
    (key : String) (st : AppState) (req : Request) (now : ℚ) (fid : String) (d : ℚ)
    (hkey : require_key key req = true)
    (hd : req.payload.distance_cm = some (JVal.num d))
    (hlo : 0 ≤ d) (hhi : d ≤ 10000) :
    create_reading key st req now fid true = (st, ⟨500, RespBody.error "Database error"⟩) := by
  unfold create_reading
  rw [hd]
  simp [hkey, hlo, hhi]

/-- Witness for `storage_failure_rolls_back`: a valid authorized
submission against a failing database is answered 500 with the one
pre-existing row intact. -/
theorem storage_failure_rolls_back_witness :
    require_key "rescue-radar-dev"
        ⟨some "rescue-radar-dev",
         { victim_id := some "vic-1", distance_cm := some (JVal.num 50) }⟩ = true ∧
    (0:ℚ) ≤ 50 ∧ (50:ℚ) ≤ 10000 ∧
    create_reading "rescue-radar-dev"
        ⟨[{ id := 1, victim_id := "vic-9", distance_cm := 7, timestamp := 0 }], 2⟩
        ⟨some "rescue-radar-dev",
         { victim_id := some "vic-1", distance_cm := some (JVal.num 50) }⟩
        1 "vic-fresh" true =
      (⟨[{ id := 1, victim_id := "vic-9", distance_cm := 7, timestamp := 0 }], 2⟩,
       ⟨500, RespBody.error "Database error"⟩) :=
  ⟨by decide, by decide, by decide,
   storage_failure_rolls_back "rescue-radar-dev"
     ⟨[{ id := 1, victim_id := "vic-9", distance_cm := 7, timestamp := 0 }], 2⟩
     ⟨some "rescue-radar-dev",
      { victim_id := some "vic-1", distance_cm := some (JVal.num 50) }⟩
     1 "vic-fresh" 50 (by decide) rfl (by decide) (by decide)⟩

/-! ### Claim C1: a below-threshold reading is not skipped -/

/-- Claim C1 as stated is false on this code: the handler has no
distance-tolerance or time-window test at all.  Here the stored record
for `vic-1` holds measurement 50 at time 0 and the incoming reading is
51 at time 1, so the measurement change (1) is below the spec's distance
tolerance range (up to 2.0) and the elapsed time (1 s) is below its time
window range (at least 5 s); the handler nevertheless answers `UPDATED`
and overwrites the stored `distance_cm` from 50 to 51. -/
theorem noise_reading_still_overwrites_cex :
    |(51:ℚ) - 50| < 2 ∧ ((1:ℚ) - 0) < 10 ∧
    (create_reading "rescue-radar-dev"
        ⟨[{ id := 1, victim_id := "vic-1", distance_cm := 50, timestamp := 0 }], 2⟩
        ⟨some "rescue-radar-dev",
         { victim_id := some "vic-1", distance_cm := some (JVal.num 51) }⟩
        1 "vic-fresh" false).2.body =
      RespBody.ok "UPDATED"
        { id := 1, victim_id := "vic-1", distance_cm := 51, timestamp := 1 } ∧
    find_reading
        (create_reading "rescue-radar-dev"
          ⟨[{ id := 1, victim_id := "vic-1", distance_cm := 50, timestamp := 0 }], 2⟩
          ⟨some "rescue-radar-dev",
           { victim_id := some "vic-1", distance_cm := some (JVal.num 51) }⟩
          1 "vic-fresh" false).1.rows "vic-1" =
      some { id := 1, victim_id := "vic-1", distance_cm := 51, timestamp := 1 } ∧
    ¬ ((51:ℚ) = 50) :=
  ⟨by norm_num, by norm_num, by decide, by decide, by decide⟩

/-- Claim C1 amended (the change the counterexample forces): for a
subject with an existing stored record, every authorized submission with
a valid in-bounds measurement yields decision `UPDATED` — never a skip —
and the stored `primary_measurement` afterwards equals the incoming
value, not the previous one. -/
theorem existing_subject_always_updated
    (key : String) (st : AppState) (req : Request) (now : ℚ) (fid : String)
    (d : ℚ) (r0 : VictimReading)
    (hkey : require_key key req = true)
    (hd : req.payload.distance_cm = some (JVal.num d))
    (hlo : 0 ≤ d) (hhi : d ≤ 10000)
    (hfound : find_reading st.rows (effective_victim_id req.payload fid) = some r0) :
    (create_reading key st req now fid false).2 =
      ⟨200, RespBody.ok "UPDATED" (reading_update req.payload d now r0)⟩ ∧
    find_reading (create_reading key st req now fid false).1.rows
        (effective_victim_id req.payload fid) =
      some (reading_update req.payload d now r0) ∧
    (reading_update req.payload d now r0).distance_cm = d := by
  have hstep : create_reading key st req now fid false =
      (⟨update_first (effective_victim_id req.payload fid)
          (reading_update req.payload d now) st.rows, st.nextId⟩,
       ⟨200, RespBody.ok "UPDATED" (reading_update req.payload d now r0)⟩) := by
    unfold create_reading
    rw [hd]
    simp [hkey, hlo, hhi, hfound]
  refine ⟨by rw [hstep], ?_, rfl⟩
  rw [hstep]
  exact find_reading_update_first (effective_victim_id req.payload fid)
    (reading_update req.payload d now) (fun r => rfl) st.rows r0 hfound

/-- Witness for `existing_subject_always_updated`: the stored measurement
50 is overwritten by the incoming 51 under decision `UPDATED`. -/
theorem existing_subject_always_updated_witness :
    require_key "rescue-radar-dev"
        ⟨some "rescue-radar-dev",
         { victim_id := some "vic-1", distance_cm := some (JVal.num 51) }⟩ = true ∧
    (0:ℚ) ≤ 51 ∧ (51:ℚ) ≤ 10000 ∧
    find_reading [{ id := 1, victim_id := "vic-1", distance_cm := 50, timestamp := 0 }]
        (effective_victim_id
          { victim_id := some "vic-1", distance_cm := some (JVal.num 51) } "vic-fresh") =
      some { id := 1, victim_id := "vic-1", distance_cm := 50, timestamp := 0 } ∧
    ((create_reading "rescue-radar-dev"
        ⟨[{ id := 1, victim_id := "vic-1", distance_cm := 50, timestamp := 0 }], 2⟩
        ⟨some "rescue-radar-dev",
         { victim_id := some "vic-1", distance_cm := some (JVal.num 51) }⟩
        1 "vic-fresh" false).2 =
      ⟨200, RespBody.ok "UPDATED"
        (reading_update { victim_id := some "vic-1", distance_cm := some (JVal.num 51) } 51 1
          { id := 1, victim_id := "vic-1", distance_cm := 50, timestamp := 0 })⟩ ∧
    find_reading (create_reading "rescue-radar-dev"
        ⟨[{ id := 1, victim_id := "vic-1", distance_cm := 50, timestamp := 0 }], 2⟩
        ⟨some "rescue-radar-dev",
         { victim_id := some "vic-1", distance_cm := some (JVal.num 51) }⟩
        1 "vic-fresh" false).1.rows
        (effective_victim_id
          { victim_id := some "vic-1", distance_cm := some (JVal.num 51) } "vic-fresh") =
      some (reading_update { victim_id := some "vic-1", distance_cm := some (JVal.num 51) } 51 1
        { id := 1, victim_id := "vic-1", distance_cm := 50, timestamp := 0 }) ∧
    (reading_update { victim_id := some "vic-1", distance_cm := some (JVal.num 51) } 51 1
        { id := 1, victim_id := "vic-1", distance_cm := 50, timestamp := 0 }).distance_cm = 51) :=
  ⟨by decide, by decide, by decide, by decide,
   existing_subject_always_updated "rescue-radar-dev"
     ⟨[{ id := 1, victim_id := "vic-1", distance_cm := 50, timestamp := 0 }], 2⟩
     ⟨some "rescue-radar-dev",
      { victim_id := some "vic-1", distance_cm := some (JVal.num 51) }⟩
     1 "vic-fresh" 51 { id := 1, victim_id := "vic-1", distance_cm := 50, timestamp := 0 }
     (by decide) rfl (by decide) (by decide) (by decide)⟩

/-! ### Claim C2: first reading for a new subject -/

/-- Claim C2 (confirmed): an authorized submission with a valid in-bounds
measurement for a subject id with no stored record is answered
`CREATED`, and the persisted row carries the submitted distance, the
submitted location verbatim, and each supplied numeric secondary field
unchanged. -/
theorem new_subject_created
    (key : String) (st : AppState) (req : Request) (now : ℚ) (fid : String)
    (d : ℚ) (v : String)
    (hkey : require_key key req = true)
    (hv : req.payload.victim_id = some v) (hne : v ≠ "")
    (hd : req.payload.distance_cm = some (JVal.num d))
    (hlo : 0 ≤ d) (hhi : d ≤ 10000)
    (habsent : find_reading st.rows v = none) :
    create_reading key st req now fid false =
      (⟨st.rows ++ [reading_new req.payload d now st.nextId v], st.nextId + 1⟩,
       ⟨200, RespBody.ok "CREATED" (reading_new req.payload d now st.nextId v)⟩) ∧
    find_reading (create_reading key st req now fid false).1.rows v =
      some (reading_new req.payload d now st.nextId v) ∧
    (reading_new req.payload d now st.nextId v).distance_cm = d ∧
    (reading_new req.payload d now st.nextId v).latitude = req.payload.latitude ∧
    (reading_new req.payload d now st.nextId v).longitude = req.payload.longitude ∧
    (∀ q : ℚ, req.payload.temperature = some (JVal.num q) →
      (reading_new req.payload d now st.nextId v).temperature_c = some q) ∧
    (∀ q : ℚ, req.payload.humidity = some (JVal.num q) →
      (reading_new req.payload d now st.nextId v).humidity_pct = some q) ∧
    (∀ q : ℚ, req.payload.gas = some (JVal.num q) →
      (reading_new req.payload d now st.nextId v).gas_ppm = some q) := by
  have hevid : effective_victim_id req.payload fid = v := by
    simp [effective_victim_id, hv, hne]
  have hstep : create_reading key st req now fid false =
      (⟨st.rows ++ [reading_new req.payload d now st.nextId v], st.nextId + 1⟩,
       ⟨200, RespBody.ok "CREATED" (reading_new req.payload d now st.nextId v)⟩) := by
    unfold create_reading
    rw [hd]
    simp [hkey, hlo, hhi, hevid, habsent]
  refine ⟨hstep, ?_, rfl, rfl, rfl, ?_, ?_, ?_⟩
  · rw [hstep]
    exact find_reading_append_last st.rows _ v habsent rfl
  · intro q hq
    simp [reading_new, coerce_optional, hq]
  · intro q hq
    simp [reading_new, coerce_optional, hq]
  · intro q hq
    simp [reading_new, coerce_optional, hq]

/-- Witness for `new_subject_created`: the first reading for `vic-2`
(distance 50, temperature 25) is created verbatim in an empty table. -/
theorem new_subject_created_witness :
    require_key "rescue-radar-dev"
        ⟨some "rescue-radar-dev",
         { victim_id := some "vic-2", distance_cm := some (JVal.num 50),
           temperature := some (JVal.num 25) }⟩ = true ∧
    ("vic-2" : String) ≠ "" ∧ (0:ℚ) ≤ 50 ∧ (50:ℚ) ≤ 10000 ∧
    find_reading ([] : List VictimReading) "vic-2" = none ∧
    (create_reading "rescue-radar-dev" ⟨[], 1⟩
        ⟨some "rescue-radar-dev",
         { victim_id := some "vic-2", distance_cm := some (JVal.num 50),
           temperature := some (JVal.num 25) }⟩
        3 "vic-fresh" false =
      (⟨[] ++ [reading_new
          { victim_id := some "vic-2", distance_cm := some (JVal.num 50),
            temperature := some (JVal.num 25) } 50 3 1 "vic-2"], 1 + 1⟩,
       ⟨200, RespBody.ok "CREATED" (reading_new
          { victim_id := some "vic-2", distance_cm := some (JVal.num 50),
            temperature := some (JVal.num 25) } 50 3 1 "vic-2")⟩) ∧
    find_reading (create_reading "rescue-radar-dev" ⟨[], 1⟩
        ⟨some "rescue-radar-dev",
         { victim_id := some "vic-2", distance_cm := some (JVal.num 50),
           temperature := some (JVal.num 25) }⟩
        3 "vic-fresh" false).1.rows "vic-2" =
      some (reading_new
        { victim_id := some "vic-2", distance_cm := some (JVal.num 50),
          temperature := some (JVal.num 25) } 50 3 1 "vic-2") ∧
    (reading_new
        { victim_id := some "vic-2", distance_cm := some (JVal.num 50),
          temperature := some (JVal.num 25) } 50 3 1 "vic-2").distance_cm = 50 ∧
    (reading_new
        { victim_id := some "vic-2", distance_cm := some (JVal.num 50),
          temperature := some (JVal.num 25) } 50 3 1 "vic-2").latitude =
      Payload.latitude
        { victim_id := some "vic-2", distance_cm := some (JVal.num 50),
          temperature := some (JVal.num 25) } ∧
    (reading_new
        { victim_id := some "vic-2", distance_cm := some (JVal.num 50),
          temperature := some (JVal.num 25) } 50 3 1 "vic-2").longitude =
      Payload.longitude
        { victim_id := some "vic-2", distance_cm := some (JVal.num 50),
          temperature := some (JVal.num 25) } ∧
    (∀ q : ℚ, Payload.temperature
        { victim_id := some "vic-2", distance_cm := some (JVal.num 50),
          temperature := some (JVal.num 25) } = some (JVal.num q) →
      (reading_new
        { victim_id := some "vic-2", distance_cm := some (JVal.num 50),
          temperature := some (JVal.num 25) } 50 3 1 "vic-2").temperature_c = some q) ∧
    (∀ q : ℚ, Payload.humidity
        { victim_id := some "vic-2", distance_cm := some (JVal.num 50),
          temperature := some (JVal.num 25) } = some (JVal.num q) →
      (reading_new
        { victim_id := some "vic-2", distance_cm := some (JVal.num 50),
          temperature := some (JVal.num 25) } 50 3 1 "vic-2").humidity_pct = some q) ∧
    (∀ q : ℚ, Payload.gas
        { victim_id := some "vic-2", distance_cm := some (JVal.num 50),
          temperature := some (JVal.num 25) } = some (JVal.num q) →
      (reading_new
        { victim_id := some "vic-2", distance_cm := some (JVal.num 50),
          temperature := some (JVal.num 25) } 50 3 1 "vic-2").gas_ppm = some q)) :=
  ⟨by decide, by decide, by decide, by decide, rfl,
   new_subject_created "rescue-radar-dev" ⟨[], 1⟩
     ⟨some "rescue-radar-dev",
      { victim_id := some "vic-2", distance_cm := some (JVal.num 50),
        temperature := some (JVal.num 25) }⟩
     3 "vic-fresh" 50 "vic-2" (by decide) rfl (by decide) rfl (by decide) (by decide) rfl⟩

/-! ### Claim C3: validation of the required measurement -/

/-- Claim C3 (confirmed): an authorized submission is answered with the
400 validation error exactly when `distance_cm` is missing, fails
numeric coercion, or lies outside `[0, 10000]`; in that case the stored
state is returned unchanged, even when the storage layer would have
failed — the rejection precedes any storage access.  A measurement of
exactly 0 or exactly 10000 is accepted, while any value below 0 or
above 10000 is rejected. -/
theorem validation_rejects_exactly_invalid
    (key : String) (st : AppState) (req : Request) (now : ℚ) (fid : String) (fails : Bool)
    (hkey : require_key key req = true) :
    ((create_reading key st req now fid fails).2.status = 400 ↔
      invalid_distance req.payload.distance_cm = true) ∧
    (invalid_distance req.payload.distance_cm = true →
      (create_reading key st req now fid fails).1 = st) ∧
    (invalid_distance req.payload.distance_cm = false → fails = false →
      (create_reading key st req now fid fails).2.status = 200) ∧
    invalid_distance (some (JVal.num 0)) = false ∧
    invalid_distance (some (JVal.num 10000)) = false ∧
    (∀ q : ℚ, q < 0 → invalid_distance (some (JVal.num q)) = true) ∧
    (∀ q : ℚ, 10000 < q → invalid_distance (some (JVal.num q)) = true) := by
  refine ⟨?_, ?_, ?_, by decide, by decide, ?_, ?_⟩
  · unfold create_reading
    rcases hdc : req.payload.distance_cm with _ | jv
    · simp [hkey, invalid_distance]
    · cases jv with
      | raw s => simp [hkey, invalid_distance]
      | num q =>
        by_cases hb : 0 ≤ q ∧ q ≤ 10000
        · simp only [hkey, hb, invalid_distance, decide_eq_true_eq]
          cases fails
          · cases hfind : find_reading st.rows (effective_victim_id req.payload fid) <;>
              simp [hfind, hb]
          · simp [hb]
        · simp [hkey, hb, invalid_distance]
  · intro hinv
    unfold create_reading
    rcases hdc : req.payload.distance_cm with _ | jv
    · simp [hkey]
    · cases jv with
      | raw s => simp [hkey]
      | num q =>
        rw [hdc] at hinv
        have hinv' : ¬ (0 ≤ q ∧ q ≤ 10000) := of_decide_eq_true hinv
        simp [hkey, hinv']
  · intro hval hfl
    subst hfl
    unfold create_reading
    rcases hdc : req.payload.distance_cm with _ | jv
    · rw [hdc] at hval
      simp [invalid_distance] at hval
    · cases jv with
      | raw s =>
        rw [hdc] at hval
        simp [invalid_distance] at hval
      | num q =>
        rw [hdc] at hval
        have hb : 0 ≤ q ∧ q ≤ 10000 := by
          by_contra hc
          have hd : invalid_distance (some (JVal.num q)) = true := decide_eq_true hc
          rw [hval] at hd
          exact Bool.false_ne_true hd
        simp only [hkey, hb, not_true_eq_false, if_neg, ite_false]
        cases hfind : find_reading st.rows (effective_victim_id req.payload fid) <;>
          simp [hfind, hb]
  · intro q hq
    simp only [invalid_distance, decide_eq_true_eq, not_and]
    intro h0
    exact absurd h0 (not_le.mpr hq)
  · intro q hq
    simp only [invalid_distance, decide_eq_true_eq, not_and]
    intro _
    exact not_le.mpr hq

/-- Witness for `validation_rejects_exactly_invalid`: an authorized
request whose `distance_cm` is the non-numeric string is answered 400
and leaves the table unchanged. -/
theorem validation_rejects_exactly_invalid_witness :
    require_key "rescue-radar-dev"
        ⟨some "rescue-radar-dev",
         { victim_id := some "vic-1", distance_cm := some (JVal.raw "not-a-number") }⟩ = true ∧
    (((create_reading "rescue-radar-dev" ⟨[], 1⟩
        ⟨some "rescue-radar-dev",
         { victim_id := some "vic-1", distance_cm := some (JVal.raw "not-a-number") }⟩
        0 "vic-fresh" false).2.status = 400 ↔
      invalid_distance (some (JVal.raw "not-a-number")) = true) ∧
    (invalid_distance (some (JVal.raw "not-a-number")) = true →
      (create_reading "rescue-radar-dev" ⟨[], 1⟩
        ⟨some "rescue-radar-dev",
         { victim_id := some "vic-1", distance_cm := some (JVal.raw "not-a-number") }⟩
        0 "vic-fresh" false).1 = ⟨[], 1⟩) ∧
    (invalid_distance (some (JVal.raw "not-a-number")) = false → false = false →
      (create_reading "rescue-radar-dev" ⟨[], 1⟩
        ⟨some "rescue-radar-dev",
         { victim_id := some "vic-1", distance_cm := some (JVal.raw "not-a-number") }⟩
        0 "vic-fresh" false).2.status = 200) ∧
    invalid_distance (some (JVal.num 0)) = false ∧
    invalid_distance (some (JVal.num 10000)) = false ∧
    (∀ q : ℚ, q < 0 → invalid_distance (some (JVal.num q)) = true) ∧
    (∀ q : ℚ, 10000 < q → invalid_distance (some (JVal.num q)) = true)) :=
  ⟨by decide,
   validation_rejects_exactly_invalid "rescue-radar-dev" ⟨[], 1⟩
     ⟨some "rescue-radar-dev",
      { victim_id := some "vic-1", distance_cm := some (JVal.raw "not-a-number") }⟩
     0 "vic-fresh" false (by decide)⟩

/-! ### Claim C5: malformed optional telemetry is tolerated -/

/-- Claim C5 (confirmed): an optional secondary field whose value fails
numeric coercion produces exactly the same response and the same stored
state as omitting the field, for each of `temperature`, `humidity` and
`gas` independently; the failed coercion itself yields `none`
(stored null), so it can never fail the submission. -/
theorem optional_coercion_failure_ignored
    (key : String) (st : AppState) (hdr : Option String) (pl : Payload)
    (now : ℚ) (fid : String) (fails : Bool) (s : String) :
    create_reading key st ⟨hdr, { pl with temperature := some (JVal.raw s) }⟩ now fid fails =
      create_reading key st ⟨hdr, { pl with temperature := none }⟩ now fid fails ∧
    create_reading key st ⟨hdr, { pl with humidity := some (JVal.raw s) }⟩ now fid fails =
      create_reading key st ⟨hdr, { pl with humidity := none }⟩ now fid fails ∧
    create_reading key st ⟨hdr, { pl with gas := some (JVal.raw s) }⟩ now fid fails =
      create_reading key st ⟨hdr, { pl with gas := none }⟩ now fid fails ∧
    coerce_optional (some (JVal.raw s)) = none := by
  obtain ⟨vi, dc, te, hu, ga, la, lo⟩ := pl
  refine ⟨?_, ?_, ?_, rfl⟩
  · have h1 : reading_update ⟨vi, dc, some (JVal.raw s), hu, ga, la, lo⟩ =
        reading_update ⟨vi, dc, none, hu, ga, la, lo⟩ := by
      funext dd nn rr
      simp [reading_update, coerce_optional]
    have h2 : reading_new ⟨vi, dc, some (JVal.raw s), hu, ga, la, lo⟩ =
        reading_new ⟨vi, dc, none, hu, ga, la, lo⟩ := by
      funext dd nn ii vv
      simp [reading_new, coerce_optional]
    simp only [create_reading, effective_victim_id, require_key, h1, h2]
  · have h1 : reading_update ⟨vi, dc, te, some (JVal.raw s), ga, la, lo⟩ =
        reading_update ⟨vi, dc, te, none, ga, la, lo⟩ := by
      funext dd nn rr
      simp [reading_update, coerce_optional]
    have h2 : reading_new ⟨vi, dc, te, some (JVal.raw s), ga, la, lo⟩ =
        reading_new ⟨vi, dc, te, none, ga, la, lo⟩ := by
      funext dd nn ii vv
      simp [reading_new, coerce_optional]
    simp only [create_reading, effective_victim_id, require_key, h1, h2]
  · have h1 : reading_update ⟨vi, dc, te, hu, some (JVal.raw s), la, lo⟩ =
        reading_update ⟨vi, dc, te, hu, none, la, lo⟩ := by
      funext dd nn rr
      simp [reading_update, coerce_optional]
    have h2 : reading_new ⟨vi, dc, te, hu, some (JVal.raw s), la, lo⟩ =
        reading_new ⟨vi, dc, te, hu, none, la, lo⟩ := by
      funext dd nn ii vv
      simp [reading_new, coerce_optional]
    simp only [create_reading, effective_victim_id, require_key, h1, h2]

/-! ### Claim C6: duplicate submission -/

/-- Claim C6 (confirmed): submitting the identical valid payload twice
for a brand-new subject id leaves exactly one row for that subject — the
first call is answered `CREATED`, the second `UPDATED` (an in-place
overwrite), and the table grows by exactly one row overall. -/
theorem duplicate_submission_single_row
    (key : String) (st0 : AppState) (req : Request) (now1 now2 : ℚ) (fid1 fid2 : String)
    (d : ℚ) (v : String)
    (hkey : require_key key req = true)
    (hv : req.payload.victim_id = some v) (hne : v ≠ "")
    (hd : req.payload.distance_cm = some (JVal.num d))
    (hlo : 0 ≤ d) (hhi : d ≤ 10000)
    (habsent : find_reading st0.rows v = none) :
    (create_reading key st0 req now1 fid1 false).2.body =
      RespBody.ok "CREATED" (reading_new req.payload d now1 st0.nextId v) ∧
    (create_reading key (create_reading key st0 req now1 fid1 false).1 req now2 fid2
        false).2.body =
      RespBody.ok "UPDATED"
        (reading_update req.payload d now2 (reading_new req.payload d now1 st0.nextId v)) ∧
    List.countP (fun r => decide (r.victim_id = v))
        (create_reading key (create_reading key st0 req now1 fid1 false).1 req now2 fid2
          false).1.rows = 1 ∧
    (create_reading key (create_reading key st0 req now1 fid1 false).1 req now2 fid2
        false).1.rows.length = st0.rows.length + 1 := by
  have hevid1 : effective_victim_id req.payload fid1 = v := by
    simp [effective_victim_id, hv, hne]
  have hevid2 : effective_victim_id req.payload fid2 = v := by
    simp [effective_victim_id, hv, hne]
  have hstep1 : create_reading key st0 req now1 fid1 false =
      (⟨st0.rows ++ [reading_new req.payload d now1 st0.nextId v], st0.nextId + 1⟩,
       ⟨200, RespBody.ok "CREATED" (reading_new req.payload d now1 st0.nextId v)⟩) := by
    unfold create_reading
    rw [hd]
    simp [hkey, hlo, hhi, hevid1, habsent]
  have hfound1 : find_reading (st0.rows ++ [reading_new req.payload d now1 st0.nextId v]) v =
      some (reading_new req.payload d now1 st0.nextId v) :=
    find_reading_append_last st0.rows _ v habsent rfl
  have hstep2 : create_reading key
      (⟨st0.rows ++ [reading_new req.payload d now1 st0.nextId v], st0.nextId + 1⟩ : AppState)
      req now2 fid2 false =
      (⟨update_first v (reading_update req.payload d now2)
          (st0.rows ++ [reading_new req.payload d now1 st0.nextId v]), st0.nextId + 1⟩,
       ⟨200, RespBody.ok "UPDATED"
         (reading_update req.payload d now2 (reading_new req.payload d now1 st0.nextId v))⟩) := by
    unfold create_reading
    rw [hd]
    simp [hkey, hlo, hhi, hevid2, hfound1]
  have hcount0 : List.countP (fun r => decide (r.victim_id = v)) st0.rows = 0 := by
    rw [List.countP_eq_zero]
    intro a ha
    simpa using find_reading_none_mem st0.rows v habsent a ha
  refine ⟨by rw [hstep1], ?_, ?_, ?_⟩
  · simp only [hstep1]
    simp only [hstep2]
  · simp only [hstep1]
    simp only [hstep2]
    rw [countP_update_first v v (reading_update req.payload d now2) (fun r => rfl)]
    rw [List.countP_append, hcount0]
    simp [List.countP_cons, reading_new_victim_id]
  · simp only [hstep1]
    simp only [hstep2]
    simp [update_first_length, List.length_append]

/-- Witness for `duplicate_submission_single_row`: the same payload for
`vic-2` submitted twice into an empty table yields one `vic-2` row. -/
theorem duplicate_submission_single_row_witness :
    require_key "rescue-radar-dev"
        ⟨some "rescue-radar-dev",
         { victim_id := some "vic-2", distance_cm := some (JVal.num 50) }⟩ = true ∧
    ("vic-2" : String) ≠ "" ∧ (0:ℚ) ≤ 50 ∧ (50:ℚ) ≤ 10000 ∧
    find_reading ([] : List VictimReading) "vic-2" = none ∧
    ((create_reading "rescue-radar-dev" ⟨[], 1⟩
        ⟨some "rescue-radar-dev",
         { victim_id := some "vic-2", distance_cm := some (JVal.num 50) }⟩
        0 "vic-a" false).2.body =
      RespBody.ok "CREATED" (reading_new
        { victim_id := some "vic-2", distance_cm := some (JVal.num 50) } 50 0 1 "vic-2") ∧
    (create_reading "rescue-radar-dev"
        (create_reading "rescue-radar-dev" ⟨[], 1⟩
          ⟨some "rescue-radar-dev",
           { victim_id := some "vic-2", distance_cm := some (JVal.num 50) }⟩
          0 "vic-a" false).1
        ⟨some "rescue-radar-dev",
         { victim_id := some "vic-2", distance_cm := some (JVal.num 50) }⟩
        1 "vic-b" false).2.body =
      RespBody.ok "UPDATED"
        (reading_update { victim_id := some "vic-2", distance_cm := some (JVal.num 50) } 50 1
          (reading_new
            { victim_id := some "vic-2", distance_cm := some (JVal.num 50) } 50 0 1 "vic-2")) ∧
    List.countP (fun r => decide (r.victim_id = "vic-2"))
        (create_reading "rescue-radar-dev"
          (create_reading "rescue-radar-dev" ⟨[], 1⟩
            ⟨some "rescue-radar-dev",
             { victim_id := some "vic-2", distance_cm := some (JVal.num 50) }⟩
            0 "vic-a" false).1
          ⟨some "rescue-radar-dev",
           { victim_id := some "vic-2", distance_cm := some (JVal.num 50) }⟩
          1 "vic-b" false).1.rows = 1 ∧
    (create_reading "rescue-radar-dev"
        (create_reading "rescue-radar-dev" ⟨[], 1⟩
          ⟨some "rescue-radar-dev",
           { victim_id := some "vic-2", distance_cm := some (JVal.num 50) }⟩
          0 "vic-a" false).1
        ⟨some "rescue-radar-dev",
         { victim_id := some "vic-2", distance_cm := some (JVal.num 50) }⟩
        1 "vic-b" false).1.rows.length = List.length ([] : List VictimReading) + 1) :=
  ⟨by decide, by decide, by decide, by decide, rfl,
   duplicate_submission_single_row "rescue-radar-dev" ⟨[], 1⟩
     ⟨some "rescue-radar-dev",
      { victim_id := some "vic-2", distance_cm := some (JVal.num 50) }⟩
     0 1 "vic-a" "vic-b" 50 "vic-2" (by decide) rfl (by decide) rfl (by decide) (by decide) rfl⟩

/-! ### Claim C7: listing is newest-first and capped -/

/-- Claim C7 (confirmed): every page returned by the list endpoint is
ordered by timestamp descending (newest first), and the effective
`per_page` never exceeds the cap of 100, whatever value the caller
requests. -/
theorem list_sorted_and_capped (st : AppState) (page per_page_req : Int) :
    (all_readings st page per_page_req).per_page ≤ 100 ∧
    (all_readings st page per_page_req).readings.Pairwise
      (fun a b => b.timestamp ≤ a.timestamp) := by
  constructor
  · simp only [all_readings]
    exact min_le_right _ _
  · have htrans : ∀ a b c : VictimReading, timestamp_desc a b = true →
        timestamp_desc b c = true → timestamp_desc a c = true := by
      intro a b c hab hbc
      simp only [timestamp_desc, decide_eq_true_eq] at hab hbc ⊢
      exact hbc.trans hab
    have htot : ∀ a b : VictimReading, (timestamp_desc a b || timestamp_desc b a) = true := by
      intro a b
      simp only [timestamp_desc, Bool.or_eq_true, decide_eq_true_eq]
      exact le_total b.timestamp a.timestamp
    have hp : (st.rows.mergeSort timestamp_desc).Pairwise
        (fun a b => b.timestamp ≤ a.timestamp) :=
      (List.sorted_mergeSort htrans htot st.rows).imp
        (fun h => by simpa [timestamp_desc] using h)
    simp only [all_readings]
    exact List.Pairwise.sublist
      ((List.take_sublist _ _).trans (List.drop_sublist _ _)) hp

/-! ### Claim C9: one row per subject id -/

theorem pairwise_update_first (vid : String) (f : VictimReading → VictimReading)
    (hf : ∀ r, (f r).victim_id = r.victim_id) (l : List VictimReading)
    (h : l.Pairwise (fun a b => a.victim_id ≠ b.victim_id)) :
    (update_first vid f l).Pairwise (fun a b => a.victim_id ≠ b.victim_id) := by
  have h1 : (l.map (fun r => r.victim_id)).Pairwise (fun a b => a ≠ b) :=
    List.pairwise_map.mpr h
  have h2 : ((update_first vid f l).map (fun r => r.victim_id)).Pairwise
      (fun a b => a ≠ b) := by
    rw [update_first_map_victim_id vid f hf l]
    exact h1
  exact List.pairwise_map.mp h2

/-- Claim C9 (confirmed): if the table holds at most one row per
`victim_id` (all victim ids pairwise distinct, as the `unique=True`
constraint enforces), then after any call of `create_reading` — insert,
in-place update, or rejection — the victim ids are still pairwise
distinct: the upsert never produces a second row for a subject. -/
theorem unique_victim_rows_preserved
    (key : String) (st : AppState) (req : Request) (now : ℚ) (fid : String) (fails : Bool)
    (hinv : st.rows.Pairwise (fun a b => a.victim_id ≠ b.victim_id)) :
    (create_reading key st req now fid fails).1.rows.Pairwise
      (fun a b => a.victim_id ≠ b.victim_id) := by
  unfold create_reading
  by_cases hkey : require_key key req
  · rcases hdc : req.payload.distance_cm with _ | jv
    · simpa [hkey] using hinv
    · cases jv with
      | raw s => simpa [hkey] using hinv
      | num q =>
        by_cases hb : 0 ≤ q ∧ q ≤ 10000
        · cases fails with
          | true => simpa [hkey, hb] using hinv
          | false =>
            cases hfind : find_reading st.rows (effective_victim_id req.payload fid) with
            | some r0 =>
              simp [hkey, hb.1, hb.2, hfind]
              exact pairwise_update_first (effective_victim_id req.payload fid)
                (reading_update req.payload q now) (fun r => rfl) st.rows hinv
            | none =>
              simp [hkey, hb.1, hb.2, hfind]
              rw [List.pairwise_append]
              refine ⟨hinv, by simp, ?_⟩
              intro a ha b hbmem
              rw [List.mem_singleton] at hbmem
              subst hbmem
              simpa using find_reading_none_mem st.rows _ hfind a ha
        · simpa [hkey, hb] using hinv
  · simpa [hkey] using hinv

/-- Witness for `unique_victim_rows_preserved`: a two-row table with
distinct victim ids stays duplicate-free across an update of one of
them. -/
theorem unique_victim_rows_preserved_witness :
    List.Pairwise (fun a b : VictimReading => a.victim_id ≠ b.victim_id)
      [{ id := 1, victim_id := "vic-1", distance_cm := 50, timestamp := 0 },
       { id := 2, victim_id := "vic-2", distance_cm := 60, timestamp := 0 }] ∧
    List.Pairwise (fun a b : VictimReading => a.victim_id ≠ b.victim_id)
      (create_reading "rescue-radar-dev"
        ⟨[{ id := 1, victim_id := "vic-1", distance_cm := 50, timestamp := 0 },
          { id := 2, victim_id := "vic-2", distance_cm := 60, timestamp := 0 }], 3⟩
        ⟨some "rescue-radar-dev",
         { victim_id := some "vic-1", distance_cm := some (JVal.num 70) }⟩
        1 "vic-fresh" false).1.rows :=
  ⟨by decide,
   unique_victim_rows_preserved "rescue-radar-dev"
     ⟨[{ id := 1, victim_id := "vic-1", distance_cm := 50, timestamp := 0 },
       { id := 2, victim_id := "vic-2", distance_cm := 60, timestamp := 0 }], 3⟩
     ⟨some "rescue-radar-dev",
      { victim_id := some "vic-1", distance_cm := some (JVal.num 70) }⟩
     1 "vic-fresh" false (by decide)⟩

/-! ### Claim C10: an update nulls every absent optional field -/

/-- Claim C10 (confirmed): when an accepted submission updates an
existing record, each optional field — independently of the others —
that is absent from the incoming payload ends up null in the stored
row, whatever value the previous record `r0` held in that column; a
payload may supply any subset of the optional fields and every omitted
one is still wiped. -/
theorem update_clears_absent_optionals
    (key : String) (st : AppState) (req : Request) (now : ℚ) (fid : String)
    (d : ℚ) (r0 : VictimReading)
    (hkey : require_key key req = true)
    (hd : req.payload.distance_cm = some (JVal.num d))
    (hlo : 0 ≤ d) (hhi : d ≤ 10000)
    (hfound : find_reading st.rows (effective_victim_id req.payload fid) = some r0) :
    find_reading (create_reading key st req now fid false).1.rows
        (effective_victim_id req.payload fid) =
      some (reading_update req.payload d now r0) ∧
    (req.payload.temperature = none →
      (reading_update req.payload d now r0).temperature_c = none) ∧
    (req.payload.humidity = none →
      (reading_update req.payload d now r0).humidity_pct = none) ∧
    (req.payload.gas = none →
      (reading_update req.payload d now r0).gas_ppm = none) ∧
    (req.payload.latitude = none →
      (reading_update req.payload d now r0).latitude = none) ∧
    (req.payload.longitude = none →
      (reading_update req.payload d now r0).longitude = none) := by
  have hstep : create_reading key st req now fid false =
      (⟨update_first (effective_victim_id req.payload fid)
          (reading_update req.payload d now) st.rows, st.nextId⟩,
       ⟨200, RespBody.ok "UPDATED" (reading_update req.payload d now r0)⟩) := by
    unfold create_reading
    rw [hd]
    simp [hkey, hlo, hhi, hfound]
  refine ⟨?_, ?_, ?_, ?_, ?_, ?_⟩
  · rw [hstep]
    exact find_reading_update_first (effective_victim_id req.payload fid)
      (reading_update req.payload d now) (fun r => rfl) st.rows r0 hfound
  · intro h
    simp [reading_update, coerce_optional, h]
  · intro h
    simp [reading_update, coerce_optional, h]
  · intro h
    simp [reading_update, coerce_optional, h]
  · intro h
    simp [reading_update, h]
  · intro h
    simp [reading_update, h]

/-- Witness for `update_clears_absent_optionals`: a mixed-presence
payload for `vic-1` supplies the distance and a temperature but omits
humidity, gas and location; the stored row, whose humidity, gas and
location were populated, has exactly those omitted columns wiped to
null. -/
theorem update_clears_absent_optionals_witness :
    require_key "rescue-radar-dev"
        ⟨some "rescue-radar-dev",
         { victim_id := some "vic-1", distance_cm := some (JVal.num 60),
           temperature := some (JVal.num 25) }⟩ = true ∧
    (0:ℚ) ≤ 60 ∧ (60:ℚ) ≤ 10000 ∧
    find_reading
        [{ id := 1, victim_id := "vic-1", distance_cm := 50, temperature_c := some 11,
           humidity_pct := some 40, gas_ppm := some 7, latitude := some 12,
           longitude := some 77, timestamp := 0 }]
        (effective_victim_id
          { victim_id := some "vic-1", distance_cm := some (JVal.num 60),
            temperature := some (JVal.num 25) } "vic-fresh") =
      some { id := 1, victim_id := "vic-1", distance_cm := 50, temperature_c := some 11,
             humidity_pct := some 40, gas_ppm := some 7, latitude := some 12,
             longitude := some 77, timestamp := 0 } ∧
    (find_reading (create_reading "rescue-radar-dev"
        ⟨[{ id := 1, victim_id := "vic-1", distance_cm := 50, temperature_c := some 11,
            humidity_pct := some 40, gas_ppm := some 7, latitude := some 12,
            longitude := some 77, timestamp := 0 }], 2⟩
        ⟨some "rescue-radar-dev",
         { victim_id := some "vic-1", distance_cm := some (JVal.num 60),
           temperature := some (JVal.num 25) }⟩
        1 "vic-fresh" false).1.rows
        (effective_victim_id
          { victim_id := some "vic-1", distance_cm := some (JVal.num 60),
            temperature := some (JVal.num 25) } "vic-fresh") =
      some (reading_update
        { victim_id := some "vic-1", distance_cm := some (JVal.num 60),
          temperature := some (JVal.num 25) } 60 1
        { id := 1, victim_id := "vic-1", distance_cm := 50, temperature_c := some 11,
          humidity_pct := some 40, gas_ppm := some 7, latitude := some 12,
          longitude := some 77, timestamp := 0 }) ∧
    (Payload.temperature
        { victim_id := some "vic-1", distance_cm := some (JVal.num 60),
          temperature := some (JVal.num 25) } = none →
      (reading_update
        { victim_id := some "vic-1", distance_cm := some (JVal.num 60),
          temperature := some (JVal.num 25) } 60 1
        { id := 1, victim_id := "vic-1", distance_cm := 50, temperature_c := some 11,
          humidity_pct := some 40, gas_ppm := some 7, latitude := some 12,
          longitude := some 77, timestamp := 0 }).temperature_c = none) ∧
    (Payload.humidity
        { victim_id := some "vic-1", distance_cm := some (JVal.num 60),
          temperature := some (JVal.num 25) } = none →
      (reading_update
        { victim_id := some "vic-1", distance_cm := some (JVal.num 60),
          temperature := some (JVal.num 25) } 60 1
        { id := 1, victim_id := "vic-1", distance_cm := 50, temperature_c := some 11,
          humidity_pct := some 40, gas_ppm := some 7, latitude := some 12,
          longitude := some 77, timestamp := 0 }).humidity_pct = none) ∧
    (Payload.gas
        { victim_id := some "vic-1", distance_cm := some (JVal.num 60),
          temperature := some (JVal.num 25) } = none →
      (reading_update
        { victim_id := some "vic-1", distance_cm := some (JVal.num 60),
          temperature := some (JVal.num 25) } 60 1
        { id := 1, victim_id := "vic-1", distance_cm := 50, temperature_c := some 11,
          humidity_pct := some 40, gas_ppm := some 7, latitude := some 12,
          longitude := some 77, timestamp := 0 }).gas_ppm = none) ∧
    (Payload.latitude
        { victim_id := some "vic-1", distance_cm := some (JVal.num 60),
          temperature := some (JVal.num 25) } = none →
      (reading_update
        { victim_id := some "vic-1", distance_cm := some (JVal.num 60),
          temperature := some (JVal.num 25) } 60 1
        { id := 1, victim_id := "vic-1", distance_cm := 50, temperature_c := some 11,
          humidity_pct := some 40, gas_ppm := some 7, latitude := some 12,
          longitude := some 77, timestamp := 0 }).latitude = none) ∧
    (Payload.longitude
        { victim_id := some "vic-1", distance_cm := some (JVal.num 60),
          temperature := some (JVal.num 25) } = none →
      (reading_update
        { victim_id := some "vic-1", distance_cm := some (JVal.num 60),
          temperature := some (JVal.num 25) } 60 1
        { id := 1, victim_id := "vic-1", distance_cm := 50, temperature_c := some 11,
          humidity_pct := some 40, gas_ppm := some 7, latitude := some 12,
          longitude := some 77, timestamp := 0 }).longitude = none)) :=
  ⟨by decide, by decide, by decide, by decide,
   update_clears_absent_optionals "rescue-radar-dev"
     ⟨[{ id := 1, victim_id := "vic-1", distance_cm := 50, temperature_c := some 11,
         humidity_pct := some 40, gas_ppm := some 7, latitude := some 12,
         longitude := some 77, timestamp := 0 }], 2⟩
     ⟨some "rescue-radar-dev",
      { victim_id := some "vic-1", distance_cm := some (JVal.num 60),
        temperature := some (JVal.num 25) }⟩
     1 "vic-fresh" 60
     { id := 1, victim_id := "vic-1", distance_cm := 50, temperature_c := some 11,
       humidity_pct := some 40, gas_ppm := some 7, latitude := some 12,
       longitude := some 77, timestamp := 0 }
     (by decide) rfl (by decide) (by decide) (by decide)⟩

end RescueRadar
